import Mathlib

/-!
Shallow embedding of the gig-request API's core (the in-memory record store,
its creation and listing handlers, and the validation/filter logic).

Two variants exist in the repository:
* `V1` — `src/main.go`: records carry a single `email` field; the list
  handler returns all records and never reads the query string.
* `V2` — the supplier-aware variant in `src/unnamed/part_000`: records carry
  `clientEmail` and `supplierEmail`; the list handler optionally filters by a
  `supplier_email` query parameter.

Go's `time.Time` is modelled as a `Nat` tick supplied by the caller (the
handler calls `time.Now()`); JSON decoding and HTTP plumbing are outside the
core and are not modelled.  Handlers are state-passing functions over a
`Store` mirroring the globals `requests` and `nextID`.
-/

namespace ApiGo

namespace V1

/-- Request record of `src/main.go`: `ID`, `GigTitle`, `Client`, `Email`,
`Details`, `CreatedAt`. -/
structure Request where
  id : Nat
  gigTitle : String
  client : String
  email : String
  details : String
  createdAt : Nat
deriving DecidableEq

/-- Global store of `src/main.go`: the `requests` slice and the `nextID`
counter, protected by one mutex. -/
structure Store where
  requests : List Request
  nextID : Nat
deriving DecidableEq

/-- Initial globals: `requests = []Request{}`, `nextID = 1`. -/
def initialStore : Store := { requests := [], nextID := 1 }

/-- Validation condition of `createRequest` in `src/main.go`:
`newRequest.GigTitle == "" || newRequest.Client == "" || newRequest.Email == ""`. -/
def requiredFieldsMissing (newRequest : Request) : Bool :=
  newRequest.gigTitle == "" || newRequest.client == "" || newRequest.email == ""

/-- Error message of the validation branch of `createRequest` in `src/main.go`. -/
def missingFieldsMsg : String :=
  "Missing required fields (gig_title, client, email)"

/-- The `createRequest` handler of `src/main.go`, after JSON decoding:
validate, then under the mutex assign `ID := nextID`, `CreatedAt := now`,
append, and increment `nextID`. -/
def createRequest (newRequest : Request) (now : Nat) (st : Store) :
    Except String Request × Store :=
  if requiredFieldsMissing newRequest then
    (Except.error missingFieldsMsg, st)
  else
    let completed := { newRequest with id := st.nextID, createdAt := now }
    (Except.ok completed,
     { requests := st.requests ++ [completed], nextID := st.nextID + 1 })

/-- The `listRequests` handler of `src/main.go`: encodes the whole `requests`
slice; the handler never reads the request's query string (modelled by the
unused `query` argument). -/
def listRequests (query : String) (st : Store) : List Request × Store :=
  (st.requests, st)

end V1

namespace V2

/-- Request record of the supplier-aware variant: `ID`, `GigTitle`, `Client`,
`ClientEmail`, `SupplierEmail`, `Details`, `CreatedAt`. -/
structure Request where
  id : Nat
  gigTitle : String
  client : String
  clientEmail : String
  supplierEmail : String
  details : String
  createdAt : Nat
deriving DecidableEq

/-- Global store of the supplier-aware variant: the `requests` slice and the
`nextID` counter, protected by one mutex. -/
structure Store where
  requests : List Request
  nextID : Nat
deriving DecidableEq

/-- Initial globals: `requests = []Request{}`, `nextID = 1`. -/
def initialStore : Store := { requests := [], nextID := 1 }

/-- Validation condition of the supplier-aware `createRequest`:
`GigTitle == "" || Client == "" || ClientEmail == "" || SupplierEmail == ""`. -/
def requiredFieldsMissing (newRequest : Request) : Bool :=
  newRequest.gigTitle == "" || newRequest.client == "" ||
    newRequest.clientEmail == "" || newRequest.supplierEmail == ""

/-- Error message of the validation branch of the supplier-aware
`createRequest`. -/
def missingFieldsMsg : String :=
  "Missing required fields (gig_title, client, client_email, supplier_email)"

/-- The supplier-aware `createRequest` handler, after JSON decoding:
validate, then under the mutex assign `ID := nextID`, `CreatedAt := now`,
append, and increment `nextID`. -/
def createRequest (newRequest : Request) (now : Nat) (st : Store) :
    Except String Request × Store :=
  if requiredFieldsMissing newRequest then
    (Except.error missingFieldsMsg, st)
  else
    let completed := { newRequest with id := st.nextID, createdAt := now }
    (Except.ok completed,
     { requests := st.requests ++ [completed], nextID := st.nextID + 1 })

/-- The supplier-aware `listRequests` handler: reads the `supplier_email`
query parameter; when non-empty it keeps exactly the records whose
`SupplierEmail` equals it (in stored order), otherwise it returns all
records. -/
def listRequests (supplierEmailFilter : String) (st : Store) :
    List Request × Store :=
  if supplierEmailFilter ≠ "" then
    (st.requests.filter (fun req => req.supplierEmail == supplierEmailFilter), st)
  else
    (st.requests, st)

/-- One client-visible operation against the supplier-aware store: a creation
attempt (with the wall-clock value `time.Now()` returned for it) or a listing. -/
inductive Op where
  | create (payload : Request) (now : Nat)
  | list (supplierEmailFilter : String)
deriving DecidableEq

/-- State transition of one operation: the store the handler leaves behind. -/
def step (st : Store) : Op → Store
  | Op.create payload now => (createRequest payload now st).2
  | Op.list supplierEmailFilter => (listRequests supplierEmailFilter st).2

/-- Run a sequence of operations from the initial globals. -/
def runOps (ops : List Op) : Store := ops.foldl step initialStore

/-- Whether an operation is a creation that passes validation (success is
state-independent: it depends only on the payload). -/
def isSuccessfulCreate : Op → Bool
  | Op.create payload _ => ! requiredFieldsMissing payload
  | Op.list _ => false

/-- Number of successful creations in a sequence of operations. -/
def successCount (ops : List Op) : Nat :=
  (ops.filter isSuccessfulCreate).length

/-- Store invariant: the stored ids are `1, 2, ...` in order, and the counter
is one past the number of records. -/
def Inv (st : Store) : Prop :=
  st.requests.map Request.id =
    (List.range st.requests.length).map (· + 1) ∧
  st.nextID = st.requests.length + 1

/-- Concrete stored record owned by supplier `s1@x.com` (spec scenario). -/
def sampleRequest1 : Request :=
  { id := 1, gigTitle := "Logo Design", client := "Acme",
    clientEmail := "a@acme.com", supplierEmail := "s1@x.com",
    details := "", createdAt := 0 }

/-- Concrete stored record owned by supplier `s2@x.com` (spec scenario). -/
def sampleRequest2 : Request :=
  { id := 2, gigTitle := "Ad Copy", client := "Bolt",
    clientEmail := "b@bolt.com", supplierEmail := "s2@x.com",
    details := "", createdAt := 0 }

/-- Concrete store holding the two sample records. -/
def sampleStore : Store :=
  { requests := [sampleRequest1, sampleRequest2], nextID := 3 }

/-- Concrete valid payload; its caller-supplied `id` and `createdAt` are
garbage the store must overwrite. -/
def validPayload : Request :=
  { id := 99, gigTitle := "Logo Design", client := "Acme",
    clientEmail := "a@acme.com", supplierEmail := "s1@x.com",
    details := "rush job", createdAt := 77 }

/-- Concrete payload with an empty mandatory `gigTitle`. -/
def emptyTitlePayload : Request :=
  { id := 0, gigTitle := "", client := "Acme",
    clientEmail := "a@acme.com", supplierEmail := "s1@x.com",
    details := "", createdAt := 0 }

/-- Concrete payload whose mandatory `gigTitle` is a single space
character (whitespace-only, not the empty string). -/
def whitespacePayload : Request :=
  { id := 0, gigTitle := " ", client := "Acme",
    clientEmail := "a@acme.com", supplierEmail := "s1@x.com",
    details := "", createdAt := 0 }

end V2

end ApiGo

namespace ApiGo

namespace V2

theorem inv_initialStore : Inv initialStore := by
  constructor <;> rfl

theorem inv_step (st : Store) (op : Op) (h : Inv st) :
    Inv (step st op) ∧
      (step st op).requests.length =
        st.requests.length + (if isSuccessfulCreate op then 1 else 0) := by
  obtain ⟨hmap, hnext⟩ := h
  cases op with
  | list supplierEmailFilter =>
      have hstep : step st (Op.list supplierEmailFilter) = st := by
        by_cases hf : supplierEmailFilter = "" <;>
          simp [step, listRequests, hf]
      rw [hstep]
      exact ⟨⟨hmap, hnext⟩, by simp [isSuccessfulCreate]⟩
  | create payload now =>
      by_cases hv : requiredFieldsMissing payload
      · have hstep : step st (Op.create payload now) = st := by
          simp [step, createRequest, hv]
        rw [hstep]
        exact ⟨⟨hmap, hnext⟩, by simp [isSuccessfulCreate, hv]⟩
      · have hstep : step st (Op.create payload now) =
            { requests :=
                st.requests ++ [{ payload with id := st.nextID, createdAt := now }],
              nextID := st.nextID + 1 } := by
          simp [step, createRequest, hv]
        rw [hstep]
        refine ⟨⟨?_, ?_⟩, ?_⟩
        · simp only [List.map_append, List.length_append, hmap, hnext,
            List.map_cons, List.map_nil, List.length_map, List.length_range,
            List.length_cons, List.length_nil, Nat.zero_add]
          rw [List.range_succ]
          simp
        · simp [hnext]
        · simp [isSuccessfulCreate, hv]

theorem inv_foldl (ops : List Op) : ∀ st : Store, Inv st →
    Inv (ops.foldl step st) ∧
      (ops.foldl step st).requests.length =
        st.requests.length + successCount ops := by
  induction ops with
  | nil => intro st h; exact ⟨h, by simp [successCount]⟩
  | cons op ops ih =>
      intro st h
      obtain ⟨h1, h2⟩ := inv_step st op h
      obtain ⟨h3, h4⟩ := ih (step st op) h1
      refine ⟨h3, ?_⟩
      rw [List.foldl_cons] at *
      rw [h4, h2]
      by_cases hs : isSuccessfulCreate op <;>
        simp [successCount, List.filter_cons, hs] <;> omega

theorem runOps_inv (ops : List Op) :
    Inv (runOps ops) ∧ (runOps ops).requests.length = successCount ops := by
  obtain ⟨h1, h2⟩ := inv_foldl ops initialStore inv_initialStore
  exact ⟨h1, by simpa [initialStore] using h2⟩

/-- C1: after any sequence of operations containing N successful creations
(rejected creations and listings freely interleaved), the stored ids in
order are exactly `1, ..., N` (so record `k` is the `k`-th element, with no
gap or repeat), a number is a stored id iff it lies in `{1, ..., N}`, and
the `nextID` counter equals `N + 1`: counter and collection move together. -/
theorem creation_ids_exact (ops : List Op) :
    (runOps ops).requests.map Request.id =
      (List.range (successCount ops)).map (· + 1) ∧
    (runOps ops).nextID = successCount ops + 1 ∧
    (∀ n : Nat, n ∈ (runOps ops).requests.map Request.id ↔
      1 ≤ n ∧ n ≤ successCount ops) ∧
    (∀ i : Fin (runOps ops).requests.length,
      ((runOps ops).requests.get i).id = i.val + 1) := by
  obtain ⟨⟨hmap, hnext⟩, hlen⟩ := runOps_inv ops
  refine ⟨by rw [hmap, hlen], by rw [hnext, hlen], ?_, ?_⟩
  · intro n
    rw [hmap, hlen]
    simp only [List.mem_map, List.mem_range]
    constructor
    · rintro ⟨a, ha, rfl⟩; omega
    · rintro ⟨h1, h2⟩; exact ⟨n - 1, by omega, by omega⟩
  · intro i
    have hi : i.val < (runOps ops).requests.length := i.isLt
    have h0 := congrArg (fun l => l[i.val]?) hmap
    simp only [List.getElem?_map] at h0
    rw [List.getElem?_eq_getElem hi, List.getElem?_range hi] at h0
    simp only [Option.map_some'] at h0
    have hget : (runOps ops).requests.get i = (runOps ops).requests[i.val] :=
      rfl
    rw [hget]
    exact Option.some.inj h0

/-- C2: a stored record appears in the supplier-aware snapshot under a
non-empty filter iff its `supplierEmail` equals the filter string exactly
(case-sensitive, no normalization), and the empty filter returns all
records. -/
theorem filter_correct (st : Store) (supplierEmailFilter : String)
    (r : Request) (hr : r ∈ st.requests) (hf : supplierEmailFilter ≠ "") :
    (r ∈ (listRequests supplierEmailFilter st).1 ↔
      r.supplierEmail = supplierEmailFilter) ∧
    (listRequests "" st).1 = st.requests := by
  constructor
  · simp [listRequests, hf, List.mem_filter, hr]
  · simp [listRequests]

theorem filter_correct_witness :
    (sampleRequest1 ∈ (listRequests "s1@x.com" sampleStore).1 ↔
      sampleRequest1.supplierEmail = "s1@x.com") ∧
    (listRequests "" sampleStore).1 = sampleStore.requests :=
  filter_correct sampleStore "s1@x.com" sampleRequest1 (by decide) (by decide)

/-- C3: the unfiltered snapshot returns exactly the stored collection, whose
ids are strictly ascending (i.e. creation order), and every filtered
snapshot is a subsequence of it, preserving that order. -/
theorem snapshot_order (ops : List Op) (supplierEmailFilter : String) :
    (listRequests "" (runOps ops)).1 = (runOps ops).requests ∧
    List.Pairwise (fun a b => a.id < b.id) (runOps ops).requests ∧
    List.Sublist (listRequests supplierEmailFilter (runOps ops)).1
      (listRequests "" (runOps ops)).1 := by
  obtain ⟨⟨hmap, _⟩, _⟩ := runOps_inv ops
  refine ⟨by simp [listRequests], ?_, ?_⟩
  · have h1 : List.Pairwise (· < ·) ((runOps ops).requests.map Request.id) := by
      rw [hmap]
      exact List.pairwise_map.2
        ((List.pairwise_lt_range _).imp (fun h => by omega))
    exact List.pairwise_map.1 h1
  · by_cases hf : supplierEmailFilter = ""
    · simp [listRequests, hf]
    · simp only [listRequests, hf, ne_eq, not_false_iff, if_pos, if_neg,
        not_true, ite_true, ite_false]
      exact List.filter_sublist _

/-- C5: a creation payload failing validation is rejected with the fixed
message naming the required fields, and leaves the store untouched: the
counter is not incremented and no record is appended. -/
theorem rejected_leaves_no_trace (p : Request) (now : Nat) (st : Store)
    (h : requiredFieldsMissing p = true) :
    (createRequest p now st).1 = Except.error missingFieldsMsg ∧
    (createRequest p now st).2 = st := by
  simp [createRequest, h]

theorem rejected_leaves_no_trace_witness :
    (createRequest emptyTitlePayload 0 initialStore).1 =
      Except.error missingFieldsMsg ∧
    (createRequest emptyTitlePayload 0 initialStore).2 = initialStore :=
  rejected_leaves_no_trace emptyTitlePayload 0 initialStore (by decide)

/-- C6: a successful creation returns and stores the payload with only `id`
and `createdAt` replaced by the store-assigned values; every other submitted
field is echoed unchanged, and any caller-supplied `id` or `createdAt` is
overwritten. -/
theorem append_frame (p : Request) (now : Nat) (st : Store)
    (h : requiredFieldsMissing p = false) :
    (createRequest p now st).1 =
      Except.ok { p with id := st.nextID, createdAt := now } ∧
    (createRequest p now st).2.requests =
      st.requests ++ [{ p with id := st.nextID, createdAt := now }] ∧
    (createRequest p now st).2.nextID = st.nextID + 1 ∧
    (∀ r : Request, (createRequest p now st).1 = Except.ok r →
      r.gigTitle = p.gigTitle ∧ r.client = p.client ∧
      r.clientEmail = p.clientEmail ∧ r.supplierEmail = p.supplierEmail ∧
      r.details = p.details ∧ r.id = st.nextID ∧ r.createdAt = now) := by
  refine ⟨by simp [createRequest, h], by simp [createRequest, h],
    by simp [createRequest, h], ?_⟩
  intro r hr
  simp only [createRequest, h, Bool.false_eq_true, if_neg, ite_false,
    Except.ok.injEq] at hr
  subst hr
  simp

theorem append_frame_witness :
    (createRequest validPayload 5 initialStore).1 =
      Except.ok
        { validPayload with id := initialStore.nextID, createdAt := 5 } ∧
    (createRequest validPayload 5 initialStore).2.requests =
      initialStore.requests ++
        [{ validPayload with id := initialStore.nextID, createdAt := 5 }] ∧
    (createRequest validPayload 5 initialStore).2.nextID =
      initialStore.nextID + 1 ∧
    (∀ r : Request, (createRequest validPayload 5 initialStore).1 =
        Except.ok r →
      r.gigTitle = validPayload.gigTitle ∧ r.client = validPayload.client ∧
      r.clientEmail = validPayload.clientEmail ∧
      r.supplierEmail = validPayload.supplierEmail ∧
      r.details = validPayload.details ∧ r.id = initialStore.nextID ∧
      r.createdAt = 5) :=
  append_frame validPayload 5 initialStore (by decide)

/-- C8: the snapshot of an empty store is the empty sequence for every
filter, and a non-empty filter matching no stored record also yields the
empty sequence; listing is a total function into lists, with no error
path. -/
theorem snapshot_empty_ok (supplierEmailFilter : String) (st : Store) :
    (st.requests = [] → (listRequests supplierEmailFilter st).1 = []) ∧
    (supplierEmailFilter ≠ "" →
      (∀ r ∈ st.requests, r.supplierEmail ≠ supplierEmailFilter) →
      (listRequests supplierEmailFilter st).1 = []) := by
  constructor
  · intro h
    by_cases hf : supplierEmailFilter = "" <;> simp [listRequests, hf, h]
  · intro hf hnone
    simp only [listRequests, hf, ne_eq, not_false_iff, if_pos, ite_true]
    rw [List.filter_eq_nil_iff]
    intro r hr
    simpa using hnone r hr

theorem snapshot_empty_ok_witness :
    (listRequests "s1@x.com" initialStore).1 = [] ∧
    (listRequests "nobody@x.com" sampleStore).1 = [] :=
  ⟨(snapshot_empty_ok "s1@x.com" initialStore).1 rfl,
   (snapshot_empty_ok "nobody@x.com" sampleStore).2 (by decide) (by decide)⟩

/-- C4 counterexample: the payload whose mandatory `gigTitle` is a single
space character is accepted by the code's validation and stored, not
rejected — the check is exact equality with `""`, with no whitespace
trimming. -/
theorem whitespace_payload_accepted :
    requiredFieldsMissing whitespacePayload = false ∧
    (createRequest whitespacePayload 0 initialStore).1 =
      Except.ok { whitespacePayload with id := 1, createdAt := 0 } :=
  ⟨rfl, rfl⟩

end V2

/-- C4 amended: in both variants, validation rejects a creation payload iff
some mandatory text field is exactly the empty string; the comparison is
exact (case-sensitive, no whitespace trimming), so whitespace-only fields
are accepted.  Rejection of the supplier-aware `createRequest` coincides
with that condition. -/
theorem validation_exact_empty (p : V2.Request) (q : V1.Request) :
    (V2.requiredFieldsMissing p = true ↔
      (p.gigTitle = "" ∨ p.client = "" ∨ p.clientEmail = "" ∨
        p.supplierEmail = "")) ∧
    (V1.requiredFieldsMissing q = true ↔
      (q.gigTitle = "" ∨ q.client = "" ∨ q.email = "")) ∧
    (∀ (now : Nat) (st : V2.Store),
      (V2.createRequest p now st).1 = Except.error V2.missingFieldsMsg ↔
        V2.requiredFieldsMissing p = true) := by
  refine ⟨?_, ?_, ?_⟩
  · simp [V2.requiredFieldsMissing, or_assoc]
  · simp [V1.requiredFieldsMissing, or_assoc]
  · intro now st
    by_cases h : V2.requiredFieldsMissing p <;> simp [V2.createRequest, h]

/-- C9: the single-email variant's list handler ignores the query string
entirely: for every query value and store it returns all stored records,
and any two query values give identical results. -/
theorem v1_list_ignores_query (q1 q2 : String) (st : V1.Store) :
    (V1.listRequests q1 st).1 = st.requests ∧
    V1.listRequests q1 st = V1.listRequests q2 st :=
  ⟨rfl, rfl⟩

/-- C10: listing never mutates the store in either variant — the store after
the call equals the store before it, the counter included — and every
returned record is (field-for-field) one of the stored records. -/
theorem snapshot_pure (supplierEmailFilter : String) (st2 : V2.Store)
    (q : String) (st1 : V1.Store) :
    (V2.listRequests supplierEmailFilter st2).2 = st2 ∧
    (∀ r, r ∈ (V2.listRequests supplierEmailFilter st2).1 →
      r ∈ st2.requests) ∧
    (V1.listRequests q st1).2 = st1 ∧
    (∀ r, r ∈ (V1.listRequests q st1).1 → r ∈ st1.requests) := by
  refine ⟨?_, ?_, rfl, fun r hr => hr⟩
  · by_cases hf : supplierEmailFilter = "" <;> simp [V2.listRequests, hf]
  · intro r hr
    by_cases hf : supplierEmailFilter = ""
    · simpa [V2.listRequests, hf] using hr
    · rw [V2.listRequests, if_pos hf] at hr
      exact (List.mem_filter.1 hr).1

theorem snapshot_pure_witness :
    (V2.listRequests "s1@x.com" V2.sampleStore).2 = V2.sampleStore ∧
    V2.sampleRequest1 ∈ V2.sampleStore.requests :=
  ⟨(snapshot_pure "s1@x.com" V2.sampleStore "" V1.initialStore).1,
   (snapshot_pure "s1@x.com" V2.sampleStore "" V1.initialStore).2.1
     V2.sampleRequest1 (by decide)⟩

end ApiGo
